import Mathlib

/-
Shallow embedding of src/src/config.rs from droplister/addrindexrs:
configuration resolution (Config::from_args and its helpers) and the
cookie-retrieval capability (StaticCookie / CookieFile implementing
CookieGetter).

Modelling conventions:
- Filesystem paths (PathBuf) are lists of components (List String);
  PathBuf.push / Path.join append a component.
- Ipv4Addr values are lists of four octets (List Nat); the constant
  DEFAULT_SERVER_ADDRESS = [127, 0, 0, 1] mirrors config.rs line 20.
- Machine integers (u16 ports, usize sizes) are Nat; usize is 64-bit,
  its maximum value is usizeMax = 2^64 - 1.
- The f32 field blocktxids_cache_size_mb is modelled by F32: NaN, the two
  infinities, or a finite value carried exactly as a rational. This is
  faithful for the one operation the code performs on it, multiplication
  by the constant MB = 2^20: multiplying a binary floating-point number by
  a power of two leaves the significand unchanged, so the result is exact
  unless the exponent leaves the f32 range, in which case the hardware
  yields an infinity; f32MulPow20 reproduces exactly that. The Rust
  `as usize` cast (castF32ToUsize) truncates toward zero and saturates:
  NaN and negative values give 0, values beyond usize::MAX give usize::MAX.
- Fallible operations return Except; process exit(1) paths surface as
  `Except.error` carrying a Fatal record (message and exit code).
- The external environment consulted by from_args (dirs::home_dir and
  num_cpus::get) is an explicit Env argument; the filesystem consulted by
  CookieFile::get is an explicit FsState argument per call, which also
  makes the absence of caching directly expressible.
- The stderrlog logger field of Config carries no decidable content and is
  omitted; the verbose/timestamp inputs that feed it are kept in RawConfig.
-/

namespace Addrindexrs

/-- Network selector, mirroring bitcoin::Network restricted to the three
variants matched in config.rs (Bitcoin, Testnet, Regtest). -/
inductive Network
  | bitcoin
  | testnet
  | regtest
deriving DecidableEq, Repr

/-- Filesystem paths as lists of components. -/
abbrev Path := List String

/-- Default IP address of the RPC server (config.rs line 20). -/
def DEFAULT_SERVER_ADDRESS : List Nat := [127, 0, 0, 1]

/-- Maximum value of a 64-bit usize. -/
def usizeMax : Nat := 2 ^ 64 - 1

/-- Model of an f32 value: NaN, an infinity, or a finite value carried
exactly as a rational number. -/
inductive F32
  | nan
  | inf
  | neginf
  | finite (q : ℚ)
deriving DecidableEq

/-- Largest finite f32 value, (2^24 - 1) * 2^104. -/
def f32Max : ℚ := (2 ^ 24 - 1) * 2 ^ 104

/-- Multiplication of an f32 by the constant MB = (1 << 20) as f32
(config.rs line 203). Multiplying by a power of two only shifts the
exponent, so on finite input the product is exact unless it leaves the
finite f32 range, where it becomes an infinity. -/
def f32MulPow20 : F32 → F32
  | F32.nan => F32.nan
  | F32.inf => F32.inf
  | F32.neginf => F32.neginf
  | F32.finite q =>
    if f32Max < q * 2 ^ 20 then F32.inf
    else if q * 2 ^ 20 < -f32Max then F32.neginf
    else F32.finite (q * 2 ^ 20)

/-- Truncation of a rational toward zero. -/
def ratTrunc (q : ℚ) : Int :=
  if 0 ≤ q then ⌊q⌋ else ⌈q⌉

/-- Rust f32-to-usize `as` cast: truncate toward zero and saturate; NaN
becomes 0 (config.rs line 218). -/
def castF32ToUsize : F32 → Nat
  | F32.nan => 0
  | F32.inf => usizeMax
  | F32.neginf => 0
  | F32.finite q => (min (ratTrunc q) (usizeMax : Int)).toNat

/-- The composed conversion config.rs line 218 performs:
`(blocktxids_cache_size_mb * MB) as usize`. -/
def blocktxids_cache_size_of (mb : F32) : Nat :=
  castF32ToUsize (f32MulPow20 mb)

/-- Environment consulted by Config::from_args: the result of
dirs::home_dir() and of num_cpus::get(). -/
structure Env where
  home_dir : Option Path
  num_cpus : Nat

/-- Raw merged configuration, the value the generated configure_me merge
hands to the post-processing in Config::from_args. Optional fields hold
`none` when no explicit value was supplied by flags, environment or config
files. -/
structure RawConfig where
  network : Network
  db_dir : Path
  daemon_dir : Option Path
  daemon_rpc_host : Option (List Nat)
  daemon_rpc_port : Option Nat
  cookie : Option String
  indexer_rpc_host : Option (List Nat)
  indexer_rpc_port : Option Nat
  jsonrpc_import : Bool
  index_batch_size : Nat
  bulk_index_threads : Nat
  txid_limit : Nat
  blocktxids_cache_size_mb : F32
  verbose : Nat
  timestamp : Bool

/-- Fatal startup failure: diagnostic printed to standard error and the
process exit status. -/
structure Fatal where
  msg : String
  exit_code : Nat
deriving DecidableEq, Repr

/-- Parsed and post-processed configuration (config.rs lines 92-109); the
stderrlog field carries no decidable content and is omitted. -/
structure Config where
  network_type : Network
  db_path : Path
  daemon_dir : Path
  daemon_rpc_host : List Nat
  daemon_rpc_port : Nat
  cookie : Option String
  indexer_rpc_host : List Nat
  indexer_rpc_port : Nat
  jsonrpc_import : Bool
  index_batch_size : Nat
  bulk_index_threads : Nat
  txid_limit : Nat
  blocktxids_cache_size : Nat
deriving DecidableEq, Repr

/-- Default daemon directory (config.rs lines 112-119): home directory
plus ".bitcoin"; when the home directory is unknown, print
"Error: unknown home directory" and exit with status 1. -/
def default_daemon_dir (home : Option Path) : Except Fatal Path :=
  match home with
  | none => Except.error ⟨"Error: unknown home directory", 1⟩
  | some h => Except.ok (h ++ [".bitcoin"])

/-- Post-processing of the merged configuration, config.rs lines 141-224,
with the merged daemon_dir supplied as an argument: derive db_path and
daemon_dir from the network, default the hosts and ports, resolve the
bulk_index_threads sentinel from num_cpus, and convert the cache size. -/
def from_args_core (env : Env) (config : RawConfig) (daemon_dir : Path) : Config :=
  let db_subdir :=
    match config.network with
    | Network.bitcoin => "mainnet"
    | Network.testnet => "testnet"
    | Network.regtest => "regtest"
  let db_dir := config.db_dir ++ [db_subdir]
  let default_daemon_port :=
    match config.network with
    | Network.bitcoin => 8332
    | Network.testnet => 18332
    | Network.regtest => 18443
  let default_indexer_port :=
    match config.network with
    | Network.bitcoin => 8432
    | Network.testnet => 18432
    | Network.regtest => 18543
  let daemon_rpc_host := config.daemon_rpc_host.getD DEFAULT_SERVER_ADDRESS
  let daemon_rpc_port := config.daemon_rpc_port.getD default_daemon_port
  let indexer_rpc_host := config.indexer_rpc_host.getD DEFAULT_SERVER_ADDRESS
  let indexer_rpc_port := config.indexer_rpc_port.getD default_indexer_port
  let daemon_dir2 :=
    match config.network with
    | Network.bitcoin => daemon_dir
    | Network.testnet => daemon_dir ++ ["testnet3"]
    | Network.regtest => daemon_dir ++ ["regtest"]
  let bulk_index_threads :=
    if config.bulk_index_threads = 0 then env.num_cpus else config.bulk_index_threads
  { network_type := config.network
    db_path := db_dir
    daemon_dir := daemon_dir2
    daemon_rpc_host := daemon_rpc_host
    daemon_rpc_port := daemon_rpc_port
    cookie := config.cookie
    indexer_rpc_host := indexer_rpc_host
    indexer_rpc_port := indexer_rpc_port
    jsonrpc_import := config.jsonrpc_import
    index_batch_size := config.index_batch_size
    bulk_index_threads := bulk_index_threads
    txid_limit := config.txid_limit
    blocktxids_cache_size := blocktxids_cache_size_of config.blocktxids_cache_size_mb }

/-- Config::from_args (config.rs lines 123-224). Modelled from the spec:
the generated configure_me merge (built from OUT_DIR, not under src/)
substitutes the default produced by default_daemon_dir when no explicit
daemon_dir was supplied, so an unknown home directory at that point is the
fatal exit of config.rs line 115; everything after the merge follows
from_args_core, translated directly from the source. -/
def from_args (env : Env) (config : RawConfig) : Except Fatal Config :=
  match config.daemon_dir with
  | some dd => Except.ok (from_args_core env config dd)
  | none => (default_daemon_dir env.home_dir).map (from_args_core env config)

/-- UTF-8 bytes of a string, the model of Rust str::as_bytes. -/
def strBytes (s : String) : List UInt8 := s.data.flatMap String.utf8EncodeChar

/-- Error raised by a failed filesystem read (std::io::Error). -/
structure IOError where
  msg : String
deriving DecidableEq, Repr

/-- Error kinds of the crate error chain restricted to the one used here. -/
inductive ErrorKind
  | Connection (msg : String)
deriving DecidableEq, Repr

/-- Crate error value: an ErrorKind plus the wrapped cause installed by
chain_err. -/
structure CrateError where
  kind : ErrorKind
  cause : Option IOError
deriving DecidableEq, Repr

/-- Debug rendering of a path, the model of the Rust formatter directive
used at config.rs line 260: the components joined by the separator,
surrounded by quotes. -/
def pathDebug (p : Path) : String :=
  "\"" ++ String.intercalate "/" p ++ "\""

/-- Filesystem state: what fs::read returns for each path, at the moment
of one call. -/
structure FsState where
  read : Path → Except IOError (List UInt8)

/-- The two CookieGetter implementations of config.rs: StaticCookie owns a
captured byte vector (lines 242-244), CookieFile owns the daemon
directory (lines 252-254). -/
inductive CookieGetterImpl
  | staticCookie (value : List UInt8)
  | cookieFile (daemon_dir : Path)
deriving DecidableEq, Repr

/-- CookieGetter::get of both variants (config.rs lines 246-263), with the
filesystem state of the moment of the call passed explicitly.
StaticCookie returns a copy of its value; CookieFile reads
daemon_dir/.cookie and on failure chains a Connection error naming the
attempted path. -/
def cookieGetterGet (g : CookieGetterImpl) (fs : FsState) : Except CrateError (List UInt8) :=
  match g with
  | CookieGetterImpl.staticCookie value => Except.ok value
  | CookieGetterImpl.cookieFile daemon_dir =>
    let path := daemon_dir ++ [".cookie"]
    match fs.read path with
    | Except.ok contents => Except.ok contents
    | Except.error e =>
      Except.error
        ⟨ErrorKind.Connection ("failed to read cookie from " ++ pathDebug path), some e⟩

/-- Config::cookie_getter (config.rs lines 226-236): StaticCookie over the
cookie bytes when the cookie option is set, else CookieFile over
daemon_dir. -/
def Config.cookie_getter (c : Config) : CookieGetterImpl :=
  match c.cookie with
  | some value => CookieGetterImpl.staticCookie (strBytes value)
  | none => CookieGetterImpl.cookieFile c.daemon_dir

/-
Sample values used by witness theorems.
-/

/-- Sample environment: a known home directory and four execution units. -/
def sampleEnv : Env := ⟨some ["home"], 4⟩

/-- Sample environment in which dirs::home_dir returns None. -/
def sampleEnvNoHome : Env := ⟨none, 4⟩

/-- Sample raw merged configuration with only required fields set. -/
def sampleRaw : RawConfig :=
  { network := Network.testnet
    db_dir := ["data", "db"]
    daemon_dir := some ["home", ".bitcoin"]
    daemon_rpc_host := none
    daemon_rpc_port := none
    cookie := none
    indexer_rpc_host := none
    indexer_rpc_port := none
    jsonrpc_import := false
    index_batch_size := 100
    bulk_index_threads := 1
    txid_limit := 100
    blocktxids_cache_size_mb := F32.finite 1
    verbose := 0
    timestamp := false }

/-- Sample raw configuration with no explicit daemon_dir. -/
def sampleRawNoDaemonDir : RawConfig := { sampleRaw with daemon_dir := none }

/-- Sample raw configuration with explicit hosts and ports. -/
def sampleRawExplicit : RawConfig :=
  { sampleRaw with
    daemon_rpc_host := some [10, 0, 0, 5]
    daemon_rpc_port := some 1234
    indexer_rpc_host := some [10, 0, 0, 6]
    indexer_rpc_port := some 5678 }

/-- Sample raw configuration with a negative cache-size input. -/
def sampleRawNegMb : RawConfig := { sampleRaw with blocktxids_cache_size_mb := F32.finite (-1) }

/-- Sample resolved configuration with a literal cookie. -/
def sampleConfigStatic : Config :=
  { network_type := Network.bitcoin
    db_path := ["data", "db", "mainnet"]
    daemon_dir := ["home", ".bitcoin"]
    daemon_rpc_host := [127, 0, 0, 1]
    daemon_rpc_port := 8332
    cookie := some "alice:secret"
    indexer_rpc_host := [127, 0, 0, 1]
    indexer_rpc_port := 8432
    jsonrpc_import := false
    index_batch_size := 100
    bulk_index_threads := 1
    txid_limit := 100
    blocktxids_cache_size := 1048576 }

/-- Sample resolved configuration with no cookie. -/
def sampleConfigFile : Config := { sampleConfigStatic with cookie := none }

/-- Sample resolved configuration with an empty cookie string. -/
def sampleConfigEmptyCookie : Config := { sampleConfigStatic with cookie := some "" }

/-- Filesystem in which every read yields the bytes of a first cookie. -/
def fsWithCookie : FsState := ⟨fun _ => Except.ok (strBytes "bob:pw")⟩

/-- Filesystem after the cookie file was rewritten. -/
def fsWithCookie2 : FsState := ⟨fun _ => Except.ok (strBytes "bob:pw2")⟩

/-- Filesystem in which every read fails. -/
def fsMissing : FsState := ⟨fun _ => Except.error ⟨"No such file or directory"⟩⟩

/-
Helper lemmas about the cache-size conversion, shared by several theorems.
-/

lemma f32Max_big : (usizeMax : ℚ) < f32Max := by
  norm_num [usizeMax, f32Max]

lemma blocktxids_nonneg_eq (q : ℚ) (h0 : 0 ≤ q) (hmax : q * 2 ^ 20 ≤ (usizeMax : ℚ)) :
    (blocktxids_cache_size_of (F32.finite q) : Int) = ⌊q * 2 ^ 20⌋ := by
  have hx0 : 0 ≤ q * 2 ^ 20 := by positivity
  have h1 : ¬ f32Max < q * 2 ^ 20 := not_lt.mpr (hmax.trans f32Max_big.le)
  have h2 : ¬ q * 2 ^ 20 < -f32Max := by
    refine not_lt.mpr (le_trans ?_ hx0)
    exact neg_nonpos.mpr
      (le_of_lt ((Nat.cast_nonneg usizeMax : (0:ℚ) ≤ usizeMax).trans_lt f32Max_big))
  have hfloor_le : ⌊q * 2 ^ 20⌋ ≤ (usizeMax : Int) := by
    have := Int.floor_mono hmax
    simpa using this
  have hfloor_nonneg : 0 ≤ ⌊q * 2 ^ 20⌋ := Int.floor_nonneg.mpr hx0
  simp only [blocktxids_cache_size_of, f32MulPow20, castF32ToUsize, if_neg h1, if_neg h2,
    ratTrunc, if_pos hx0]
  rw [min_eq_left hfloor_le]
  exact Int.toNat_of_nonneg hfloor_nonneg

lemma blocktxids_neg_eq_zero (q : ℚ) (h : q < 0) :
    blocktxids_cache_size_of (F32.finite q) = 0 := by
  have hx : q * 2 ^ 20 < 0 := by nlinarith
  have h1 : ¬ f32Max < q * 2 ^ 20 := by
    refine not_lt.mpr (le_trans hx.le ?_)
    exact le_of_lt ((Nat.cast_nonneg usizeMax : (0:ℚ) ≤ usizeMax).trans_lt f32Max_big)
  by_cases h2 : q * 2 ^ 20 < -f32Max
  · simp [blocktxids_cache_size_of, f32MulPow20, if_neg h1, if_pos h2, castF32ToUsize]
  · have hceil : ratTrunc (q * 2 ^ 20) ≤ 0 := by
      simp only [ratTrunc, if_neg (not_le.mpr hx)]
      exact Int.ceil_le.mpr (by exact_mod_cast hx.le)
    simp only [blocktxids_cache_size_of, f32MulPow20, if_neg h1, if_neg h2, castF32ToUsize]
    exact Int.toNat_of_nonpos (le_trans (min_le_left _ _) hceil)

lemma blocktxids_overflow_eq (q : ℚ) (h : (usizeMax : ℚ) < q * 2 ^ 20) :
    blocktxids_cache_size_of (F32.finite q) = usizeMax := by
  by_cases h1 : f32Max < q * 2 ^ 20
  · simp [blocktxids_cache_size_of, f32MulPow20, if_pos h1, castF32ToUsize]
  · have hx0 : 0 ≤ q * 2 ^ 20 :=
      le_of_lt ((Nat.cast_nonneg usizeMax : (0:ℚ) ≤ usizeMax).trans_lt h)
    have h2 : ¬ q * 2 ^ 20 < -f32Max := by
      refine not_lt.mpr (le_trans ?_ hx0)
      exact neg_nonpos.mpr
        (le_of_lt ((Nat.cast_nonneg usizeMax : (0:ℚ) ≤ usizeMax).trans_lt f32Max_big))
    have hfl : (usizeMax : Int) ≤ ⌊q * 2 ^ 20⌋ := Int.le_floor.mpr (by exact_mod_cast h.le)
    simp only [blocktxids_cache_size_of, f32MulPow20, if_neg h1, if_neg h2, castF32ToUsize,
      ratTrunc, if_pos hx0]
    rw [min_eq_right hfl]
    simp

lemma blocktxids_one_mb : blocktxids_cache_size_of (F32.finite 1) = 1048576 := by
  have h := blocktxids_nonneg_eq 1 (by norm_num) (by norm_num [usizeMax])
  have hfl : ⌊(1 : ℚ) * 2 ^ 20⌋ = 1048576 := by norm_num
  rw [hfl] at h
  exact_mod_cast h

lemma blocktxids_two_half_mb : blocktxids_cache_size_of (F32.finite (5 / 2)) = 2621440 := by
  have h := blocktxids_nonneg_eq (5 / 2) (by norm_num) (by norm_num [usizeMax])
  have hfl : ⌊(5 / 2 : ℚ) * 2 ^ 20⌋ = 2621440 := by norm_num
  rw [hfl] at h
  exact_mod_cast h

/-
Claim theorems.
-/

/-- Claim C1 counterexample: the unconditional claim fails. With the home
directory unknown but an explicit daemon_dir supplied, config.rs line 128
tolerates the missing home (the per-user config file is merely skipped),
default_daemon_dir is never invoked, and a Config value is constructed. -/
theorem from_args_home_dir_tolerated_counterexample :
    sampleEnvNoHome.home_dir = none ∧
    from_args sampleEnvNoHome sampleRaw =
      Except.ok (from_args_core sampleEnvNoHome sampleRaw ["home", ".bitcoin"]) :=
  ⟨rfl, rfl⟩

/-- Claim C1 as amended: when the host home directory cannot be determined
and no explicit daemon_dir is supplied, so that the merge needs the
default daemon directory, from_args stops with the fatal diagnostic
"Error: unknown home directory" and exit status 1, which is non-zero, and
no Config value is constructed in that case. -/
theorem from_args_home_dir_fatal (env : Env) (config : RawConfig)
    (hhome : env.home_dir = none) (hdd : config.daemon_dir = none) :
    from_args env config = Except.error ⟨"Error: unknown home directory", 1⟩ ∧
    (Fatal.mk "Error: unknown home directory" 1).exit_code ≠ 0 ∧
    ∀ cfg : Config, from_args env config ≠ Except.ok cfg := by
  have h : from_args env config = Except.error ⟨"Error: unknown home directory", 1⟩ := by
    simp [from_args, hdd, hhome, default_daemon_dir, Except.map]
  refine ⟨h, Nat.one_ne_zero, fun cfg hc => ?_⟩
  rw [h] at hc
  exact Except.noConfusion hc

/-- Witness for C1 at a concrete environment without a home directory and
a raw configuration without an explicit daemon_dir. -/
theorem from_args_home_dir_fatal_witness :
    from_args sampleEnvNoHome sampleRawNoDaemonDir =
      Except.error ⟨"Error: unknown home directory", 1⟩ ∧
    from_args sampleEnvNoHome sampleRawNoDaemonDir ≠
      Except.ok (from_args_core sampleEnvNoHome sampleRawNoDaemonDir ["x"]) :=
  ⟨(from_args_home_dir_fatal sampleEnvNoHome sampleRawNoDaemonDir rfl rfl).1,
   (from_args_home_dir_fatal sampleEnvNoHome sampleRawNoDaemonDir rfl rfl).2.2
     (from_args_core sampleEnvNoHome sampleRawNoDaemonDir ["x"])⟩

/-- Claim C2: cookie_getter returns the StaticCookie variant over the
cookie bytes exactly when the cookie field is set, and otherwise the
CookieFile variant bound to daemon_dir; it is a pure function of the
current Config fields. -/
theorem cookie_getter_selection (c : Config) :
    (∀ s, c.cookie = some s →
      Config.cookie_getter c = CookieGetterImpl.staticCookie (strBytes s)) ∧
    (c.cookie = none → Config.cookie_getter c = CookieGetterImpl.cookieFile c.daemon_dir) := by
  constructor
  · intro s hs
    simp [Config.cookie_getter, hs]
  · intro hn
    simp [Config.cookie_getter, hn]

/-- Witness for C2 at a Config with a cookie and a Config without one. -/
theorem cookie_getter_selection_witness :
    Config.cookie_getter sampleConfigStatic =
      CookieGetterImpl.staticCookie (strBytes "alice:secret") ∧
    Config.cookie_getter sampleConfigFile =
      CookieGetterImpl.cookieFile sampleConfigFile.daemon_dir :=
  ⟨(cookie_getter_selection sampleConfigStatic).1 "alice:secret" rfl,
   (cookie_getter_selection sampleConfigFile).2 rfl⟩

/-- Claim C3: CookieFile.get reads daemon_dir/.cookie against the
filesystem state of each call, returning exactly the bytes read; two
calls against different states return the respective contents, so a
rewritten cookie file is picked up; a failed read produces a Connection
error whose message names the attempted path and which wraps the
underlying cause. -/
theorem cookieFile_get_fresh_and_connection_error (dd : Path) (fs1 fs2 : FsState)
    (b1 b2 : List UInt8) (e : IOError) :
    (fs1.read (dd ++ [".cookie"]) = Except.ok b1 →
      cookieGetterGet (CookieGetterImpl.cookieFile dd) fs1 = Except.ok b1) ∧
    (fs1.read (dd ++ [".cookie"]) = Except.ok b1 →
      fs2.read (dd ++ [".cookie"]) = Except.ok b2 →
      cookieGetterGet (CookieGetterImpl.cookieFile dd) fs1 = Except.ok b1 ∧
      cookieGetterGet (CookieGetterImpl.cookieFile dd) fs2 = Except.ok b2) ∧
    (fs1.read (dd ++ [".cookie"]) = Except.error e →
      cookieGetterGet (CookieGetterImpl.cookieFile dd) fs1 =
        Except.error
          ⟨ErrorKind.Connection ("failed to read cookie from " ++ pathDebug (dd ++ [".cookie"])),
           some e⟩) := by
  refine ⟨fun h1 => ?_, fun h1 h2 => ⟨?_, ?_⟩, fun he => ?_⟩ <;>
    simp [cookieGetterGet, *]

/-- Witness for C3: a present cookie file, the same file after a rewrite,
and a missing file. -/
theorem cookieFile_get_fresh_and_connection_error_witness :
    cookieGetterGet (CookieGetterImpl.cookieFile ["daemon"]) fsWithCookie =
      Except.ok (strBytes "bob:pw") ∧
    cookieGetterGet (CookieGetterImpl.cookieFile ["daemon"]) fsWithCookie2 =
      Except.ok (strBytes "bob:pw2") ∧
    cookieGetterGet (CookieGetterImpl.cookieFile ["daemon"]) fsMissing =
      Except.error
        ⟨ErrorKind.Connection ("failed to read cookie from " ++ pathDebug ["daemon", ".cookie"]),
         some ⟨"No such file or directory"⟩⟩ := by
  have h := cookieFile_get_fresh_and_connection_error ["daemon"] fsWithCookie fsWithCookie2
    (strBytes "bob:pw") (strBytes "bob:pw2") ⟨"No such file or directory"⟩
  have hmiss := cookieFile_get_fresh_and_connection_error ["daemon"] fsMissing fsMissing
    (strBytes "bob:pw") (strBytes "bob:pw2") ⟨"No such file or directory"⟩
  exact ⟨h.1 rfl, (h.2.1 rfl rfl).2, hmiss.2.2 rfl⟩

/-- Claim C4: the constructed db_path is the raw db_dir plus the network
storage subdirectory (mainnet, testnet, regtest), and the constructed
daemon_dir is the merged daemon directory plus testnet3 for TestNet,
regtest for RegTest, and unmodified for MainNet. -/
theorem network_directory_layout (env : Env) (config : RawConfig) (dd : Path) :
    (from_args_core env config dd).db_path =
      config.db_dir ++
        [match config.network with
          | Network.bitcoin => "mainnet"
          | Network.testnet => "testnet"
          | Network.regtest => "regtest"] ∧
    (from_args_core env config dd).daemon_dir =
      (match config.network with
        | Network.bitcoin => dd
        | Network.testnet => dd ++ ["testnet3"]
        | Network.regtest => dd ++ ["regtest"]) := by
  cases hn : config.network <;> simp [from_args_core, hn]

/-- Claim C5: hosts default to 127.0.0.1 and ports to the per-network
pair (MainNet 8332/8432, TestNet 18332/18432, RegTest 18443/18543) when
no explicit value is present, and explicit values pass through. -/
theorem rpc_host_port_resolution (env : Env) (config : RawConfig) (dd : Path) :
    (∀ h, config.daemon_rpc_host = some h →
      (from_args_core env config dd).daemon_rpc_host = h) ∧
    (config.daemon_rpc_host = none →
      (from_args_core env config dd).daemon_rpc_host = [127, 0, 0, 1]) ∧
    (∀ h, config.indexer_rpc_host = some h →
      (from_args_core env config dd).indexer_rpc_host = h) ∧
    (config.indexer_rpc_host = none →
      (from_args_core env config dd).indexer_rpc_host = [127, 0, 0, 1]) ∧
    (∀ p, config.daemon_rpc_port = some p →
      (from_args_core env config dd).daemon_rpc_port = p) ∧
    (config.daemon_rpc_port = none →
      (from_args_core env config dd).daemon_rpc_port =
        (match config.network with
          | Network.bitcoin => 8332
          | Network.testnet => 18332
          | Network.regtest => 18443)) ∧
    (∀ p, config.indexer_rpc_port = some p →
      (from_args_core env config dd).indexer_rpc_port = p) ∧
    (config.indexer_rpc_port = none →
      (from_args_core env config dd).indexer_rpc_port =
        (match config.network with
          | Network.bitcoin => 8432
          | Network.testnet => 18432
          | Network.regtest => 18543)) := by
  refine ⟨fun h hh => ?_, fun hh => ?_, fun h hh => ?_, fun hh => ?_,
    fun p hp => ?_, fun hp => ?_, fun p hp => ?_, fun hp => ?_⟩ <;>
    simp [from_args_core, DEFAULT_SERVER_ADDRESS, *]

/-- Witness for C5: explicit values pass through and absent values take
the TestNet defaults. -/
theorem rpc_host_port_resolution_witness :
    (from_args_core sampleEnv sampleRawExplicit ["d"]).daemon_rpc_host = [10, 0, 0, 5] ∧
    (from_args_core sampleEnv sampleRawExplicit ["d"]).daemon_rpc_port = 1234 ∧
    (from_args_core sampleEnv sampleRaw ["d"]).daemon_rpc_host = [127, 0, 0, 1] ∧
    (from_args_core sampleEnv sampleRaw ["d"]).daemon_rpc_port = 18332 ∧
    (from_args_core sampleEnv sampleRaw ["d"]).indexer_rpc_port = 18432 := by
  refine ⟨(rpc_host_port_resolution sampleEnv sampleRawExplicit ["d"]).1 [10, 0, 0, 5] rfl,
    (rpc_host_port_resolution sampleEnv sampleRawExplicit ["d"]).2.2.2.2.1 1234 rfl,
    (rpc_host_port_resolution sampleEnv sampleRaw ["d"]).2.1 rfl,
    (rpc_host_port_resolution sampleEnv sampleRaw ["d"]).2.2.2.2.2.1 rfl,
    (rpc_host_port_resolution sampleEnv sampleRaw ["d"]).2.2.2.2.2.2.2 rfl⟩

/-- Claim C6: a raw bulk_index_threads of 0 resolves to the number of
execution units reported by the host (num_cpus, at least 1 by the
guarantee of that library, taken as a hypothesis), any nonzero raw value
passes through unchanged, and the resolved value is never zero. -/
theorem bulk_index_threads_resolution (env : Env) (config : RawConfig) (dd : Path)
    (hcpu : 1 ≤ env.num_cpus) :
    (config.bulk_index_threads = 0 →
      (from_args_core env config dd).bulk_index_threads = env.num_cpus) ∧
    (config.bulk_index_threads ≠ 0 →
      (from_args_core env config dd).bulk_index_threads = config.bulk_index_threads) ∧
    1 ≤ (from_args_core env config dd).bulk_index_threads := by
  refine ⟨fun h => by simp [from_args_core, h], fun h => by simp [from_args_core, h], ?_⟩
  by_cases h : config.bulk_index_threads = 0
  · simpa [from_args_core, h] using hcpu
  · simpa [from_args_core, h] using Nat.one_le_iff_ne_zero.mpr h

/-- Witness for C6: the 0 sentinel resolves to the sample host count 4
and the explicit value 1 passes through. -/
theorem bulk_index_threads_resolution_witness :
    (from_args_core sampleEnv { sampleRaw with bulk_index_threads := 0 } ["d"]).bulk_index_threads
      = sampleEnv.num_cpus ∧
    (from_args_core sampleEnv sampleRaw ["d"]).bulk_index_threads = sampleRaw.bulk_index_threads ∧
    1 ≤ (from_args_core sampleEnv sampleRaw ["d"]).bulk_index_threads :=
  ⟨(bulk_index_threads_resolution sampleEnv { sampleRaw with bulk_index_threads := 0 } ["d"]
      (by decide)).1 rfl,
   (bulk_index_threads_resolution sampleEnv sampleRaw ["d"] (by decide)).2.1 (by decide),
   (bulk_index_threads_resolution sampleEnv sampleRaw ["d"] (by decide)).2.2⟩

/-- Claim C7 counterexample: at input -1.0 the constructed
blocktxids_cache_size is 0, not the truncation toward zero of
-1.0 * 2^20 = -1048576, so the unrestricted claim fails. -/
theorem blocktxids_truncation_counterexample :
    ¬ (((from_args_core sampleEnv sampleRawNegMb ["dd"]).blocktxids_cache_size : Int)
        = ratTrunc ((-1 : ℚ) * 2 ^ 20)) := by
  have hL : (from_args_core sampleEnv sampleRawNegMb ["dd"]).blocktxids_cache_size = 0 :=
    blocktxids_neg_eq_zero (-1) (by norm_num)
  have hR : ratTrunc ((-1 : ℚ) * 2 ^ 20) ≤ -1 := by
    simp only [ratTrunc, if_neg (by norm_num : ¬ (0:ℚ) ≤ (-1 : ℚ) * 2 ^ 20)]
    exact Int.ceil_le.mpr (by norm_num)
  rw [hL]
  intro hc
  omega

/-- Claim C7 as amended: for a nonnegative finite input whose product
with 2^20 does not exceed the usize range, the constructed
blocktxids_cache_size is exactly the product truncated toward zero; in
particular 1.0 gives 1048576 and 2.5 gives 2621440. -/
theorem blocktxids_cache_size_conversion (env : Env) (config : RawConfig) (dd : Path) (q : ℚ)
    (hq : config.blocktxids_cache_size_mb = F32.finite q) (h0 : 0 ≤ q)
    (hmax : q * 2 ^ 20 ≤ (usizeMax : ℚ)) :
    ((from_args_core env config dd).blocktxids_cache_size : Int) = ratTrunc (q * 2 ^ 20) ∧
    blocktxids_cache_size_of (F32.finite 1) = 1048576 ∧
    blocktxids_cache_size_of (F32.finite (5 / 2)) = 2621440 := by
  have hx0 : (0:ℚ) ≤ q * 2 ^ 20 := by positivity
  refine ⟨?_, blocktxids_one_mb, blocktxids_two_half_mb⟩
  have hcore : (from_args_core env config dd).blocktxids_cache_size
      = blocktxids_cache_size_of config.blocktxids_cache_size_mb := rfl
  rw [hcore, hq]
  simp only [ratTrunc, if_pos hx0]
  exact blocktxids_nonneg_eq q h0 hmax

/-- Witness for the amended C7 at input 1.0. -/
theorem blocktxids_cache_size_conversion_witness :
    ((from_args_core sampleEnv sampleRaw ["d"]).blocktxids_cache_size : Int)
      = ratTrunc ((1 : ℚ) * 2 ^ 20) ∧
    blocktxids_cache_size_of (F32.finite 1) = 1048576 ∧
    blocktxids_cache_size_of (F32.finite (5 / 2)) = 2621440 :=
  blocktxids_cache_size_conversion sampleEnv sampleRaw ["d"] 1 rfl (by norm_num)
    (by norm_num [usizeMax])

/-- Claim C8: StaticCookie.get succeeds on every call, returning exactly
the captured byte sequence, whatever the filesystem state. -/
theorem staticCookie_get_always_succeeds (value : List UInt8) (fs : FsState) :
    cookieGetterGet (CookieGetterImpl.staticCookie value) fs = Except.ok value := rfl

/-- Claim C9: a present but empty cookie string still selects the
StaticCookie variant, whose get returns the empty byte sequence and
never the CookieFile variant, even when no cookie file exists. -/
theorem empty_cookie_selects_static (c : Config) (fs : FsState) (h : c.cookie = some "") :
    Config.cookie_getter c = CookieGetterImpl.staticCookie [] ∧
    cookieGetterGet (Config.cookie_getter c) fs = Except.ok [] ∧
    ∀ dd : Path, Config.cookie_getter c ≠ CookieGetterImpl.cookieFile dd := by
  have hb : strBytes "" = [] := rfl
  refine ⟨?_, ?_, ?_⟩ <;> simp [Config.cookie_getter, h, hb, cookieGetterGet]

/-- Witness for C9 at a Config with an empty cookie over a filesystem
with no cookie file. -/
theorem empty_cookie_selects_static_witness :
    Config.cookie_getter sampleConfigEmptyCookie = CookieGetterImpl.staticCookie [] ∧
    cookieGetterGet (Config.cookie_getter sampleConfigEmptyCookie) fsMissing = Except.ok [] ∧
    Config.cookie_getter sampleConfigEmptyCookie ≠
      CookieGetterImpl.cookieFile sampleConfigEmptyCookie.daemon_dir :=
  ⟨(empty_cookie_selects_static sampleConfigEmptyCookie fsMissing rfl).1,
   (empty_cookie_selects_static sampleConfigEmptyCookie fsMissing rfl).2.1,
   (empty_cookie_selects_static sampleConfigEmptyCookie fsMissing rfl).2.2
     sampleConfigEmptyCookie.daemon_dir⟩

/-- Claim C10: the cache-size conversion is total and saturating: it is
the function applied by from_args_core, NaN and every negative input
give 0, and any product beyond the usize range gives the maximum usize
value. -/
theorem blocktxids_cast_saturates :
    (∀ (env : Env) (config : RawConfig) (dd : Path),
      (from_args_core env config dd).blocktxids_cache_size =
        blocktxids_cache_size_of config.blocktxids_cache_size_mb) ∧
    blocktxids_cache_size_of F32.nan = 0 ∧
    blocktxids_cache_size_of F32.neginf = 0 ∧
    (∀ q : ℚ, q < 0 → blocktxids_cache_size_of (F32.finite q) = 0) ∧
    blocktxids_cache_size_of F32.inf = usizeMax ∧
    (∀ q : ℚ, (usizeMax : ℚ) < q * 2 ^ 20 →
      blocktxids_cache_size_of (F32.finite q) = usizeMax) :=
  ⟨fun _ _ _ => rfl, rfl, rfl, blocktxids_neg_eq_zero, rfl, blocktxids_overflow_eq⟩

/-- Witness for C10 at a negative input and an overflowing input. -/
theorem blocktxids_cast_saturates_witness :
    blocktxids_cache_size_of (F32.finite (-1)) = 0 ∧
    blocktxids_cache_size_of (F32.finite (2 ^ 50)) = usizeMax := by
  refine ⟨blocktxids_cast_saturates.2.2.2.1 (-1) (by norm_num),
    blocktxids_cast_saturates.2.2.2.2.2 (2 ^ 50) ?_⟩
  norm_num [usizeMax]

end Addrindexrs
